import Mathlib

/-!
Verification development for the `usrs` USB host-access library.

We shallowly embed the parts of the source that the specification's claims
talk about: the shared error taxonomy (`src/error.rs`), the IOKit return-code
translation and timeout conversion (`src/backend/macos/iokit.rs`), the
device-selector predicate (`src/device.rs`), the request-type byte encoding
(`src/request.rs`), the per-interface open/close state machine and the
interface/endpoint maps of the macOS backend (`src/backend/macos.rs`,
`src/backend/macos/iokit.rs`, `src/backend/macos/device.rs`), the open-time
retry loop, and the callback-to-future adapter (`src/futures.rs`).

Calls into the operating system are modelled by explicit oracle parameters
(the return code and output values the OS would produce), and every function
that issues OS calls additionally returns the list of calls it issued, so
that "no OS call is issued" is a provable statement.  Rust panics are
modelled by returning `none` from an `Option`-valued function.
-/

/-- The error taxonomy of `src/error.rs` (`enum Error`). -/
inductive Error where
  | Unsupported
  | DeviceNotFound
  | DeviceNotOpen
  | DeviceNotReal
  | DeviceReserved
  | Stalled
  | InvalidEndpoint
  | InvalidInterface
  | TimedOut
  | InvalidArgument
  | Aborted
  | Overrun
  | PermissionDenied
  | OsError (code : Int)
  | UnspecifiedOsError
deriving DecidableEq, Repr

/-- `pub type UsbResult<T> = Result<T, Error>` from `src/error.rs`. -/
abbrev UsbResult (T : Type) := Except Error T

/-! IOKit return codes (`IOReturn` is a C `int`, i.e. `i32`; the values below
are the i32 interpretations of Apple's `0xE00002xx` / `0xE00040xx` codes,
as provided by the external `io-kit-sys` crate). -/

def kIOReturnSuccess : Int := 0

def kIOReturnNotOpen : Int := -536870195

def kIOReturnNoDevice : Int := -536870208

def kIOReturnExclusiveAccess : Int := -536870203

def kIOReturnBadArgument : Int := -536870206

def kIOReturnAborted : Int := -536870165

def kIOReturnOverrun : Int := -536870168

def kIOReturnNoResources : Int := -536870210

def kIOUSBNoAsyncPortErr : Int := -536854433

def kIOUSBUnknownPipeErr : Int := -536854431

def kIOUSBPipeStalled : Int := -536854449

def kIOUSBTransactionTimeout : Int := -536854447

/-- `io_return_to_error` from `src/backend/macos/iokit.rs`: translates an
IOReturn code into the shared taxonomy. -/
def io_return_to_error (rc : Int) : Error :=
  if rc = kIOReturnNotOpen then .DeviceNotOpen
  else if rc = kIOReturnNoDevice then .DeviceNotFound
  else if rc = kIOReturnExclusiveAccess then .DeviceReserved
  else if rc = kIOReturnBadArgument then .InvalidArgument
  else if rc = kIOReturnAborted then .Aborted
  else if rc = kIOReturnOverrun then .Overrun
  else if rc = kIOReturnNoResources then .PermissionDenied
  else if rc = kIOUSBNoAsyncPortErr then .DeviceNotOpen
  else if rc = kIOUSBUnknownPipeErr then .InvalidEndpoint
  else if rc = kIOUSBPipeStalled then .Stalled
  else if rc = kIOUSBTransactionTimeout then .TimedOut
  else .OsError rc

/-- `UsbResult::from_io_return` from `src/backend/macos/iokit.rs`. -/
def from_io_return (io_return : Int) : UsbResult Unit :=
  if io_return ≠ kIOReturnSuccess then .error (io_return_to_error io_return)
  else .ok ()

/-- `UsbResult::from_io_return_and_value` from `src/backend/macos/iokit.rs`. -/
def from_io_return_and_value {T : Type} (io_return : Int) (ok_value : T) : UsbResult T :=
  if io_return ≠ kIOReturnSuccess then .error (io_return_to_error io_return)
  else .ok ok_value

/-! ## Durations and the IOKit timeout conversion (claim C7) -/

/-- Rust `std::time::Duration`: whole seconds plus a sub-second nanosecond
part (the standard library keeps `nanos < 10^9`). -/
structure Duration where
  secs : Nat
  nanos : Nat
deriving DecidableEq, Repr

/-- `Duration::as_millis`: the total number of whole milliseconds. -/
def Duration.as_millis (d : Duration) : Nat :=
  d.secs * 1000 + d.nanos / 1000000

def u32_MAX : Nat := 4294967295

/-- `to_iokit_timeout` from `src/backend/macos/iokit.rs`.  The first component
is the returned `u32` millisecond count (the `as u32` cast truncates mod
`2^32`); the second records whether the saturation warning was logged. -/
def to_iokit_timeout (timeout : Duration) : Nat × Bool :=
  let timeout_ms := timeout.as_millis % 4294967296
  if timeout.as_millis > u32_MAX then (u32_MAX, true)
  else (timeout_ms, false)

/-! ## Device information and the selector predicate (claim C8) -/

/-- `DeviceInformation` from `src/device.rs`. -/
structure DeviceInformation where
  vendor_id : Nat
  product_id : Nat
  serial : Option String
  vendor : Option String
  product : Option String
  backend_numeric_location : Option Nat
  backend_string_location : Option String
deriving DecidableEq, Repr

/-- `DeviceSelector` from `src/device.rs`. -/
structure DeviceSelector where
  vendor_id : Option Nat
  product_id : Option Nat
  serial : Option String
deriving DecidableEq, Repr

/-- `DeviceSelector::matches` from `src/device.rs`: three sequential guard
clauses, each returning `false` on a mismatch of a set field. -/
def DeviceSelector.matches (s : DeviceSelector) (device : DeviceInformation) : Bool :=
  Id.run do
    -- Check VID.
    if let some vid := s.vendor_id then
      if vid ≠ device.vendor_id then
        return false
    -- Check PID.
    if let some pid := s.product_id then
      if pid ≠ device.product_id then
        return false
    -- Check serial.
    if s.serial.isSome then
      if s.serial ≠ device.serial then
        return false
    return true

/-! ## Request-type byte encoding (claim C9) -/

/-- `Direction` from `src/request.rs`. -/
inductive Direction where
  | Out
  | In
deriving DecidableEq, Repr

/-- The `#[repr(u8)]` discriminant of `Direction`. -/
def Direction.val : Direction → Nat
  | .Out => 0
  | .In => 1

/-- `Type` from `src/request.rs` (named `Type'` here since `Type` is a Lean
keyword). -/
inductive Type' where
  | Standard
  | Class
  | Vendor
deriving DecidableEq, Repr

/-- The `#[repr(u8)]` discriminant of `Type`. -/
def Type'.val : Type' → Nat
  | .Standard => 0
  | .Class => 1
  | .Vendor => 2

/-- `Recipient` from `src/request.rs`. -/
inductive Recipient where
  | Device
  | Interface
  | Endpoint
  | Other
deriving DecidableEq, Repr

/-- The `#[repr(u8)]` discriminant of `Recipient`. -/
def Recipient.val : Recipient → Nat
  | .Device => 0
  | .Interface => 1
  | .Endpoint => 2
  | .Other => 3

/-- `RequestType` from `src/request.rs`. -/
structure RequestType where
  direction : Direction
  request_type : Type'
  recipient : Recipient
deriving DecidableEq, Repr

/-- `impl From<&RequestType> for u8` from `src/request.rs`. -/
def RequestType.toU8 (encoded : RequestType) : Nat :=
  let direction := encoded.direction.val <<< 7
  let request_type := encoded.request_type.val <<< 5
  let recipient := encoded.recipient.val
  direction ||| request_type ||| recipient

/-! ## Theorems for claims C7, C8, C9 -/

/-- C7: for every Duration, the IOKit timeout translation equals
`min (whole milliseconds) u32::MAX`, and the saturation warning is logged
exactly when the millisecond count exceeds `u32::MAX`. -/
theorem to_iokit_timeout_saturating_min (d : Duration) :
    (to_iokit_timeout d).1 = min d.as_millis u32_MAX ∧
    ((to_iokit_timeout d).2 = true ↔ u32_MAX < d.as_millis) := by
  unfold to_iokit_timeout
  by_cases h : d.as_millis > u32_MAX
  · simp only [h, if_pos]
    constructor
    · exact (min_eq_right h.le).symm
    · simp [h]
  · push_neg at h
    simp only [gt_iff_lt, not_lt.mpr h, if_neg, not_false_eq_true]
    constructor
    · have hlt : d.as_millis < 4294967296 := lt_of_le_of_lt h (by norm_num [u32_MAX])
      rw [Nat.mod_eq_of_lt hlt, min_eq_left h]
    · simp [not_lt.mpr h]

/-- C8: a selector with no set field matches every device; a selector with a
set field disagreeing with the device's corresponding field (for serial,
including a device serial of `None`) does not match. -/
theorem DeviceSelector_matches_spec (s : DeviceSelector) (d : DeviceInformation) :
    (s.vendor_id = none → s.product_id = none → s.serial = none →
        s.matches d = true) ∧
    (∀ v, s.vendor_id = some v → v ≠ d.vendor_id → s.matches d = false) ∧
    (∀ p, s.product_id = some p → p ≠ d.product_id → s.matches d = false) ∧
    (∀ str, s.serial = some str → d.serial ≠ some str → s.matches d = false) := by
  refine ⟨?_, ?_, ?_, ?_⟩
  · intro hv hp hs
    simp [DeviceSelector.matches, hv, hp, hs, Id.run]
  · intro v hv hne
    simp [DeviceSelector.matches, hv, hne, Id.run]
  · intro p hp hne
    rcases hv : s.vendor_id with _ | v
    · simp [DeviceSelector.matches, hv, hp, hne, Id.run]
    · by_cases hveq : v = d.vendor_id
      · simp [DeviceSelector.matches, hv, hp, hne, hveq, Id.run]
      · simp [DeviceSelector.matches, hv, hveq, Id.run]
  · intro str hs hne
    have hsne : ¬ some str = d.serial := fun hc => hne hc.symm
    rcases hv : s.vendor_id with _ | v
    · rcases hp : s.product_id with _ | p
      · simp [DeviceSelector.matches, hv, hp, hs, hsne, Id.run]
      · by_cases hpeq : p = d.product_id
        · simp [DeviceSelector.matches, hv, hp, hpeq, hs, hsne, Id.run]
        · simp [DeviceSelector.matches, hv, hp, hpeq, Id.run]
    · by_cases hveq : v = d.vendor_id
      · rcases hp : s.product_id with _ | p
        · simp [DeviceSelector.matches, hv, hveq, hp, hs, hsne, Id.run]
        · by_cases hpeq : p = d.product_id
          · simp [DeviceSelector.matches, hv, hveq, hp, hpeq, hs, hsne, Id.run]
          · simp [DeviceSelector.matches, hv, hveq, hp, hpeq, Id.run]
      · simp [DeviceSelector.matches, hv, hveq, Id.run]

/-- Witness for C8 at concrete inputs. -/
theorem DeviceSelector_matches_spec_witness :
    (DeviceSelector.mk none none none).matches
      (DeviceInformation.mk 1 2 none none none none none) = true ∧
    (DeviceSelector.mk (some 7) none none).matches
      (DeviceInformation.mk 1 2 none none none none none) = false ∧
    (DeviceSelector.mk none none (some "abc")).matches
      (DeviceInformation.mk 1 2 none none none none none) = false := by
  refine ⟨?_, ?_, ?_⟩
  · exact (DeviceSelector_matches_spec _ _).1 rfl rfl rfl
  · exact (DeviceSelector_matches_spec _ _).2.1 7 rfl (by decide)
  · exact (DeviceSelector_matches_spec _ _).2.2.2 "abc" rfl (by simp)

/-- C9: the `u8` encoding of `RequestType` places the direction bit in bit 7,
the request type in bits 6–5 and the recipient in bits 4–0; equivalently it
equals `direction * 2^7 + type * 2^5 + recipient` for all 24 enum value
combinations. -/
theorem RequestType_toU8_layout (d : Direction) (t : Type') (r : Recipient) :
    (RequestType.mk d t r).toU8 = (d.val <<< 7) ||| (t.val <<< 5) ||| r.val ∧
    (RequestType.mk d t r).toU8 = d.val * 128 + t.val * 32 + r.val ∧
    (RequestType.mk d t r).toU8 / 128 = d.val ∧
    (RequestType.mk d t r).toU8 / 32 % 4 = t.val ∧
    (RequestType.mk d t r).toU8 % 32 = r.val := by
  cases d <;> cases t <;> cases r <;> exact ⟨rfl, by decide, by decide, by decide, by decide⟩

/-! ## The macOS backend's interface state machine and maps
(claims C1, C2, C4, C5, C6, C10) -/

/-- The OS calls the backend can issue; functions that reach the operating
system return the list of calls they issued, so that "no OS call" is a
provable statement. -/
inductive OsCall where
  | USBInterfaceOpen (interface_number : Nat)
  | USBInterfaceClose (interface_number : Nat)
  | DeviceRequest (wLength : Nat)
  | DeviceRequestTO (wLength : Nat) (timeout_ms : Nat)
  | DeviceRequestAsync (wLength : Nat)
  | DeviceRequestAsyncTO (wLength : Nat) (timeout_ms : Nat)
  | CreatePlugInInterfaceForService
  | SleepMs (ms : Nat)
deriving DecidableEq, Repr

/-- The state of `OsInterface` from `src/backend/macos/iokit.rs` (the raw
pointer is irrelevant to the claims; the tracked fields are the interface
number, the `deny_all` placeholder flag and the `is_open` flag). -/
structure OsInterface where
  interface_number : Nat
  deny_all : Bool
  is_open : Bool
deriving DecidableEq, Repr

/-- `OsInterface::new`. -/
def OsInterface.new (interface_number : Nat) : OsInterface :=
  { interface_number, deny_all := false, is_open := false }

/-- `OsInterface::new_denying_placeholder`. -/
def OsInterface.new_denying_placeholder (interface_number : Nat) : OsInterface :=
  { interface_number, deny_all := true, is_open := false }

/-- `OsInterface::open` from `src/backend/macos/iokit.rs`; `rc` is the OS
return code of `USBInterfaceOpen`.  Note that, exactly as in the source, a
successful open does *not* update `is_open`. -/
def OsInterface.open (i : OsInterface) (rc : Int) :
    UsbResult Unit × OsInterface × List OsCall :=
  if i.deny_all then (.error .PermissionDenied, i, [])
  else if i.is_open then (.ok (), i, [])
  else (from_io_return rc, i, [.USBInterfaceOpen i.interface_number])

/-- `OsInterface::close` from `src/backend/macos/iokit.rs`; `rc` is the OS
return code of `USBInterfaceClose`.  `none` models the
"open deny_all interface" panic. -/
def OsInterface.close (i : OsInterface) (rc : Int) : Option (OsInterface × List OsCall) :=
  if !i.is_open then some (i, [])
  else if i.deny_all then none
  else if rc = kIOReturnSuccess then
    some ({ i with is_open := false }, [.USBInterfaceClose i.interface_number])
  else some (i, [.USBInterfaceClose i.interface_number])

/-- `OsInterface::endpoint_properties` (result only; `rc` and `props` are the
OS oracle's return code and output values for `GetPipePropertiesV2`). -/
def OsInterface.endpoint_properties {T : Type} (i : OsInterface) (rc : Int) (props : T)
    (_pipe_ref : Nat) : UsbResult T :=
  if i.deny_all then .error .PermissionDenied
  else from_io_return_and_value rc props

/-- `OsInterface::clear_stall` (result only; `rc` is the OS return code of
`ClearPipeStall`). -/
def OsInterface.clear_stall (i : OsInterface) (rc : Int) (_pipe_ref : Nat) : UsbResult Unit :=
  if i.deny_all then .error .PermissionDenied
  else from_io_return rc

/-- `OsInterface::set_alternate_setting` (result only; `rc` is the OS return
code of `SetAlternateInterface`). -/
def OsInterface.set_alternate_setting (i : OsInterface) (rc : Int) (_setting : Nat) :
    UsbResult Unit :=
  if i.deny_all then .error .PermissionDenied
  else from_io_return rc

/-- `EndpointInformation` from `src/backend/macos/device.rs`. -/
structure EndpointInformation where
  interface_number : Nat
  pipe_ref : Nat
deriving DecidableEq, Repr

/-- Key lookup in an association list, modelling `HashMap::get`. -/
def lookup {α : Type} (k : Nat) : List (Nat × α) → Option α
  | [] => none
  | (k2, v) :: rest => if k2 = k then some v else lookup k rest

/-- Value replacement at a key, modelling mutation through `HashMap::get_mut`. -/
def updateAt {α : Type} (k : Nat) (v : α) : List (Nat × α) → List (Nat × α)
  | [] => []
  | (k2, v2) :: rest => if k2 = k then (k2, v) :: rest else (k2, v2) :: updateAt k v rest

/-- `MacOsDevice` from `src/backend/macos/device.rs`: the per-device interface
map and endpoint-metadata map (the raw `OsDevice` handle and the termination
flag are irrelevant to the claims modelled here). -/
structure MacOsDevice where
  interfaces : List (Nat × OsInterface)
  endpoint_metadata : List (Nat × EndpointInformation)
deriving DecidableEq, Repr

/-- `MacOsBackend::claim_interface` from `src/backend/macos.rs`: look the
interface up (missing → `InvalidArgument`), then `OsInterface::open`. -/
def MacOsBackend.claim_interface (d : MacOsDevice) (rc : Int) (interface : Nat) :
    UsbResult Unit × MacOsDevice × List OsCall :=
  match lookup interface d.interfaces with
  | none => (.error .InvalidArgument, d, [])
  | some intf =>
    let (r, intf2, calls) := intf.open rc
    (r, { d with interfaces := updateAt interface intf2 d.interfaces }, calls)

/-- `MacOsBackend::unclaim_interface` from `src/backend/macos.rs`: look the
interface up (missing → `InvalidArgument`), then `OsInterface::close`
(which returns no error), and return `Ok(())`. -/
def MacOsBackend.unclaim_interface (d : MacOsDevice) (rc : Int) (interface : Nat) :
    Option (UsbResult Unit × MacOsDevice × List OsCall) :=
  match lookup interface d.interfaces with
  | none => some (.error .InvalidArgument, d, [])
  | some intf =>
    match intf.close rc with
    | none => none
    | some (intf2, calls) =>
      some (.ok (), { d with interfaces := updateAt interface intf2 d.interfaces }, calls)

/-- `MacOsBackend::set_alternate_setting` from `src/backend/macos.rs`:
look the interface up (missing → `InvalidInterface`), then delegate. -/
def MacOsBackend.set_alternate_setting (d : MacOsDevice) (rc : Int)
    (interface setting : Nat) : UsbResult Unit :=
  match lookup interface d.interfaces with
  | none => .error .InvalidInterface
  | some intf => intf.set_alternate_setting rc setting

/-- Replacing a key's value by the value already stored there is a no-op. -/
theorem updateAt_lookup_self {α : Type} (k : Nat) (v : α) :
    ∀ l : List (Nat × α), lookup k l = some v → updateAt k v l = l := by
  intro l
  induction l with
  | nil => intro h; cases h
  | cons p rest ih =>
    intro h
    obtain ⟨k2, v2⟩ := p
    by_cases hk : k2 = k
    · simp only [lookup, hk, if_pos] at h
      simp only [updateAt, hk, if_pos]
      injection h with h
      rw [h]
    · simp only [lookup, hk, if_neg, not_false_eq_true] at h
      simp only [updateAt, hk, if_neg, not_false_eq_true, ih h]

/-- C10: for an interface number absent from the interface map,
`claim_interface` and `unclaim_interface` return `InvalidArgument`, while
`set_alternate_setting` returns `InvalidInterface` — two different taxonomy
kinds for the same missing-interface condition. -/
theorem missing_interface_error_kinds (d : MacOsDevice) (rc : Int) (i setting : Nat)
    (h : lookup i d.interfaces = none) :
    MacOsBackend.claim_interface d rc i = (.error .InvalidArgument, d, []) ∧
    MacOsBackend.unclaim_interface d rc i = some (.error .InvalidArgument, d, []) ∧
    MacOsBackend.set_alternate_setting d rc i setting = .error .InvalidInterface := by
  refine ⟨?_, ?_, ?_⟩
  · unfold MacOsBackend.claim_interface
    rw [h]
  · unfold MacOsBackend.unclaim_interface
    rw [h]
  · unfold MacOsBackend.set_alternate_setting
    rw [h]

/-- Witness for C10: a device with an empty interface map. -/
theorem missing_interface_error_kinds_witness :
    MacOsBackend.claim_interface (MacOsDevice.mk [] []) 0 3
        = (.error .InvalidArgument, MacOsDevice.mk [] [], []) ∧
    MacOsBackend.unclaim_interface (MacOsDevice.mk [] []) 0 3
        = some (.error .InvalidArgument, MacOsDevice.mk [] [], []) ∧
    MacOsBackend.set_alternate_setting (MacOsDevice.mk [] []) 0 3 1
        = .error .InvalidInterface :=
  missing_interface_error_kinds (MacOsDevice.mk [] []) 0 3 1 rfl

/-- C4: claiming an interface backed by a permission-denied placeholder
returns `PermissionDenied`, leaves the device (and hence the interface's
open state) unchanged and issues no OS call — the placeholder stays in the
map — and the placeholder's `open`, `endpoint_properties`, `clear_stall`
and `set_alternate_setting` all fail with `PermissionDenied`. -/
theorem denying_placeholder_behavior (d : MacOsDevice) (rc : Int) (i : Nat)
    (intf : OsInterface) (pipe_ref setting : Nat) (props : EndpointInformation)
    (hfind : lookup i d.interfaces = some intf) (hdeny : intf.deny_all = true) :
    MacOsBackend.claim_interface d rc i = (.error .PermissionDenied, d, []) ∧
    intf.open rc = (.error .PermissionDenied, intf, []) ∧
    intf.endpoint_properties rc props pipe_ref = .error .PermissionDenied ∧
    intf.clear_stall rc pipe_ref = .error .PermissionDenied ∧
    intf.set_alternate_setting rc setting = .error .PermissionDenied := by
  have hopen : intf.open rc = (.error .PermissionDenied, intf, []) := by
    unfold OsInterface.open
    rw [hdeny]
    simp
  refine ⟨?_, hopen, ?_, ?_, ?_⟩
  · unfold MacOsBackend.claim_interface
    rw [hfind]
    simp only [hopen, updateAt_lookup_self i intf d.interfaces hfind]
  · unfold OsInterface.endpoint_properties
    rw [hdeny]
    simp
  · unfold OsInterface.clear_stall
    rw [hdeny]
    simp
  · unfold OsInterface.set_alternate_setting
    rw [hdeny]
    simp

/-- Witness for C4: a device whose interface 2 is a denying placeholder. -/
theorem denying_placeholder_behavior_witness :
    MacOsBackend.claim_interface
        (MacOsDevice.mk [(2, OsInterface.new_denying_placeholder 2)] []) 0 2
      = (.error .PermissionDenied,
         MacOsDevice.mk [(2, OsInterface.new_denying_placeholder 2)] [], []) ∧
    (OsInterface.new_denying_placeholder 2).open 0
      = (.error .PermissionDenied, OsInterface.new_denying_placeholder 2, []) ∧
    (OsInterface.new_denying_placeholder 2).endpoint_properties 0 (EndpointInformation.mk 2 1) 1
      = .error .PermissionDenied ∧
    (OsInterface.new_denying_placeholder 2).clear_stall 0 1 = .error .PermissionDenied ∧
    (OsInterface.new_denying_placeholder 2).set_alternate_setting 0 1
      = .error .PermissionDenied :=
  denying_placeholder_behavior
    (MacOsDevice.mk [(2, OsInterface.new_denying_placeholder 2)] []) 0 2
    (OsInterface.new_denying_placeholder 2) 1 1 (EndpointInformation.mk 2 1) rfl rfl

/-- C2 counterexample/demonstration: `OsInterface::open` never records
`is_open := true` on success, so on a freshly created (non-denying)
interface whose `USBInterfaceOpen` succeeds: the claim-visible state still
reports the interface closed; a second `claim_interface` re-issues
`USBInterfaceOpen` instead of being a no-op; and `unclaim_interface`
returns without ever issuing `USBInterfaceClose`. -/
theorem claim_interface_is_open_never_set :
    -- One interface, number 0, freshly created; all OS calls succeed.
    (MacOsBackend.claim_interface (MacOsDevice.mk [(0, OsInterface.new 0)] []) 0 0
      = (.ok (), MacOsDevice.mk [(0, OsInterface.new 0)] [], [.USBInterfaceOpen 0])) ∧
    -- After the successful claim, the stored interface still has is_open = false.
    (OsInterface.new 0).is_open = false ∧
    -- A second claim issues USBInterfaceOpen again (not a no-op).
    (MacOsBackend.claim_interface
        (MacOsBackend.claim_interface (MacOsDevice.mk [(0, OsInterface.new 0)] []) 0 0).2.1 0 0).2.2
      = [.USBInterfaceOpen 0] ∧
    -- Unclaiming issues no USBInterfaceClose at all.
    MacOsBackend.unclaim_interface
        (MacOsBackend.claim_interface (MacOsDevice.mk [(0, OsInterface.new 0)] []) 0 0).2.1 0 0
      = some (.ok (), MacOsDevice.mk [(0, OsInterface.new 0)] [], []) := by
  refine ⟨?_, rfl, ?_, ?_⟩ <;>
    simp [MacOsBackend.claim_interface, MacOsBackend.unclaim_interface, OsInterface.open,
      OsInterface.close, OsInterface.new, lookup, updateAt, from_io_return, kIOReturnSuccess]

/-! ## Control transfers (claim C1) -/

/-- `MacOsBackend::control` from `src/backend/macos.rs`: issues one
`DeviceRequest` (or `DeviceRequestTO` when a timeout is given) and returns
`wLenDone` on success.  `rc`/`wLenDone` are the OS oracle's outputs. -/
def MacOsBackend.control (rc : Int) (wLenDone : Nat) (length : Nat)
    (timeout : Option Duration) : UsbResult Nat × List OsCall :=
  match timeout with
  | some t =>
    let timeout_ms := (to_iokit_timeout t).1
    (from_io_return_and_value rc wLenDone, [.DeviceRequestTO length timeout_ms])
  | none =>
    (from_io_return_and_value rc wLenDone, [.DeviceRequest length])

/-- `MacOsBackend::control_nonblocking` from `src/backend/macos.rs`: hands
the leaked callback to the OS and issues one async device request.  The
third component counts the callbacks handed to the OS (leaked via
`leak_to_iokit`). -/
def MacOsBackend.control_nonblocking (rc : Int) (length : Nat)
    (timeout : Option Duration) : UsbResult Unit × List OsCall × Nat :=
  match timeout with
  | some t =>
    let timeout_ms := (to_iokit_timeout t).1
    (from_io_return rc, [.DeviceRequestAsyncTO length timeout_ms], 1)
  | none =>
    (from_io_return rc, [.DeviceRequestAsync length], 1)

/-- `MacOsBackend::control_read` from `src/backend/macos.rs`: rejects
buffers longer than `u16::MAX` with `Overrun` before calling `control`. -/
def MacOsBackend.control_read (rc : Int) (wLenDone : Nat) (targetLen : Nat)
    (timeout : Option Duration) : UsbResult Nat × List OsCall :=
  if targetLen > 65535 then (.error .Overrun, [])
  else MacOsBackend.control rc wLenDone targetLen timeout

/-- `MacOsBackend::control_write` from `src/backend/macos.rs`. -/
def MacOsBackend.control_write (rc : Int) (wLenDone : Nat) (dataLen : Nat)
    (timeout : Option Duration) : UsbResult Unit × List OsCall :=
  if dataLen > 65535 then (.error .Overrun, [])
  else
    let (r, calls) := MacOsBackend.control rc wLenDone dataLen timeout
    (match r with
     | .error e => .error e
     | .ok _ => .ok (), calls)

/-- `MacOsBackend::control_read_nonblocking` from `src/backend/macos.rs`:
the same length validation, performed synchronously before submission. -/
def MacOsBackend.control_read_nonblocking (rc : Int) (targetLen : Nat)
    (timeout : Option Duration) : UsbResult Unit × List OsCall × Nat :=
  if targetLen > 65535 then (.error .Overrun, [], 0)
  else MacOsBackend.control_nonblocking rc targetLen timeout

/-- `MacOsBackend::control_write_nonblocking` from `src/backend/macos.rs`. -/
def MacOsBackend.control_write_nonblocking (rc : Int) (dataLen : Nat)
    (timeout : Option Duration) : UsbResult Unit × List OsCall × Nat :=
  if dataLen > 65535 then (.error .Overrun, [], 0)
  else MacOsBackend.control_nonblocking rc dataLen timeout

/-- C1: every control transfer with a buffer/data length above 65535 bytes
fails with `Overrun` in all four entry points, with no OS request submitted
and no callback handed to the OS. -/
theorem control_overrun_before_os_call (rc : Int) (wLenDone len : Nat)
    (timeout : Option Duration) (h : len > 65535) :
    MacOsBackend.control_read rc wLenDone len timeout = (.error .Overrun, []) ∧
    MacOsBackend.control_write rc wLenDone len timeout = (.error .Overrun, []) ∧
    MacOsBackend.control_read_nonblocking rc len timeout = (.error .Overrun, [], 0) ∧
    MacOsBackend.control_write_nonblocking rc len timeout = (.error .Overrun, [], 0) := by
  refine ⟨?_, ?_, ?_, ?_⟩ <;>
    simp [MacOsBackend.control_read, MacOsBackend.control_write,
      MacOsBackend.control_read_nonblocking, MacOsBackend.control_write_nonblocking, h]

/-- Witness for C1 at length 65536. -/
theorem control_overrun_before_os_call_witness :
    MacOsBackend.control_read 0 0 65536 none = (.error .Overrun, []) ∧
    MacOsBackend.control_write 0 0 65536 none = (.error .Overrun, []) ∧
    MacOsBackend.control_read_nonblocking 0 65536 none = (.error .Overrun, [], 0) ∧
    MacOsBackend.control_write_nonblocking 0 65536 none = (.error .Overrun, [], 0) :=
  control_overrun_before_os_call 0 0 65536 none (by decide)

/-! ## Endpoint resolution and the transfer paths (claim C6) -/

/-- `address_for_out_endpoint` from `src/backend/macos/endpoint.rs`. -/
def address_for_out_endpoint (number : Nat) : Nat := number

/-- `address_for_in_endpoint` from `src/backend/macos/endpoint.rs`. -/
def address_for_in_endpoint (number : Nat) : Nat := number ||| 0x80

/-- `MacOsBackend::resources_for_endpoint` from `src/backend/macos.rs`:
a missing endpoint-metadata entry is an `InvalidEndpoint` error; a metadata
entry whose interface is missing from the interface map is the
`expect("endpoint points to an invalid interface")` panic (`none`). -/
def MacOsBackend.resources_for_endpoint (d : MacOsDevice) (address : Nat) :
    Option (UsbResult (Nat × OsInterface)) :=
  match lookup address d.endpoint_metadata with
  | none => some (.error .InvalidEndpoint)
  | some endpoint_info =>
    match lookup endpoint_info.interface_number d.interfaces with
    | none => none
    | some interface => some (.ok (endpoint_info.pipe_ref, interface))

/-- `MacOsBackend::resources_for_in_endpoint`. -/
def MacOsBackend.resources_for_in_endpoint (d : MacOsDevice) (number : Nat) :
    Option (UsbResult (Nat × OsInterface)) :=
  MacOsBackend.resources_for_endpoint d (address_for_in_endpoint number)

/-- `MacOsBackend::resources_for_out_endpoint`. -/
def MacOsBackend.resources_for_out_endpoint (d : MacOsDevice) (number : Nat) :
    Option (UsbResult (Nat × OsInterface)) :=
  MacOsBackend.resources_for_endpoint d (address_for_out_endpoint number)

/-- `OsInterface::read` / `read_with_timeout` (result only): `ReadPipe`
returns the transferred size on success. -/
def OsInterface.read (_i : OsInterface) (rc : Int) (size : Nat) (_pipe_ref : Nat) :
    UsbResult Nat :=
  from_io_return_and_value rc size

/-- `OsInterface::write` / `write_with_timeout` (result only). -/
def OsInterface.write (_i : OsInterface) (rc : Int) (_pipe_ref : Nat) : UsbResult Unit :=
  from_io_return rc

/-- `MacOsBackend::read` from `src/backend/macos.rs`: resolves the IN
address (`number | 0x80`) and performs the pipe read; `none` is the panic
from a metadata entry with a missing interface. -/
def MacOsBackend.read (d : MacOsDevice) (rc : Int) (size : Nat) (endpoint : Nat)
    (timeout : Option Duration) : Option (UsbResult Nat) :=
  match MacOsBackend.resources_for_in_endpoint d endpoint with
  | none => none
  | some (.error e) => some (.error e)
  | some (.ok (pipe_ref, interface)) =>
    match timeout with
    | some _ => some (interface.read rc size pipe_ref)
    | none => some (interface.read rc size pipe_ref)

/-- `MacOsBackend::write` from `src/backend/macos.rs`: resolves the OUT
address (the bare number) and performs the pipe write. -/
def MacOsBackend.write (d : MacOsDevice) (rc : Int) (endpoint : Nat)
    (timeout : Option Duration) : Option (UsbResult Unit) :=
  match MacOsBackend.resources_for_out_endpoint d endpoint with
  | none => none
  | some (.error e) => some (.error e)
  | some (.ok (pipe_ref, interface)) =>
    match timeout with
    | some _ => some (interface.write rc pipe_ref)
    | none => some (interface.write rc pipe_ref)

/-- `MacOsBackend::read_nonblocking` from `src/backend/macos.rs`
(submission result only). -/
def MacOsBackend.read_nonblocking (d : MacOsDevice) (rc : Int) (endpoint : Nat)
    (timeout : Option Duration) : Option (UsbResult Unit) :=
  match MacOsBackend.resources_for_in_endpoint d endpoint with
  | none => none
  | some (.error e) => some (.error e)
  | some (.ok (_pipe_ref, _interface)) =>
    match timeout with
    | some _ => some (from_io_return rc)
    | none => some (from_io_return rc)

/-- `MacOsBackend::write_nonblocking` from `src/backend/macos.rs`
(submission result only). -/
def MacOsBackend.write_nonblocking (d : MacOsDevice) (rc : Int) (endpoint : Nat)
    (timeout : Option Duration) : Option (UsbResult Unit) :=
  match MacOsBackend.resources_for_out_endpoint d endpoint with
  | none => none
  | some (.error e) => some (.error e)
  | some (.ok (_pipe_ref, _interface)) =>
    match timeout with
    | some _ => some (from_io_return rc)
    | none => some (from_io_return rc)

/-- `MacOsBackend::clear_stall` from `src/backend/macos.rs`: resolves the
raw endpoint address and clears the stall on the resulting pipe. -/
def MacOsBackend.clear_stall (d : MacOsDevice) (rc : Int) (endpoint_address : Nat) :
    Option (UsbResult Unit) :=
  match MacOsBackend.resources_for_endpoint d endpoint_address with
  | none => none
  | some (.error e) => some (.error e)
  | some (.ok (pipe_ref, interface)) => some (interface.clear_stall rc pipe_ref)

/-- A successful `lookup` exhibits a member of the list. -/
theorem lookup_mem {α : Type} (k : Nat) :
    ∀ (l : List (Nat × α)) (v : α), lookup k l = some v → (k, v) ∈ l := by
  intro l
  induction l with
  | nil => intro v h; cases h
  | cons p rest ih =>
    intro v h
    obtain ⟨k2, v2⟩ := p
    by_cases hk : k2 = k
    · simp only [lookup, hk, if_pos] at h
      injection h with h
      subst hk h
      exact List.mem_cons_self _ _
    · simp only [lookup, hk, if_neg, not_false_eq_true] at h
      exact List.mem_cons_of_mem _ (ih v h)

/-- Under the internal-consistency guard, endpoint resolution never hits the
missing-interface panic. -/
theorem resources_for_endpoint_no_panic (d : MacOsDevice)
    (hguard : ∀ p ∈ d.endpoint_metadata, lookup (α := OsInterface) p.2.interface_number d.interfaces ≠ none)
    (address : Nat) :
    MacOsBackend.resources_for_endpoint d address ≠ none := by
  unfold MacOsBackend.resources_for_endpoint
  cases hmeta : lookup address d.endpoint_metadata with
  | none => simp
  | some info =>
    have hin := lookup_mem address d.endpoint_metadata info hmeta
    have := hguard (address, info) hin
    cases hintf : lookup info.interface_number d.interfaces with
    | none => exact absurd hintf this
    | some intf => simp [hintf]

/-- C6: a transfer-path operation on an endpoint whose address has no
metadata entry returns `InvalidEndpoint` (read resolves `number | 0x80`,
write the bare number, clear_stall the raw address), and, under the guard
that every metadata entry's interface exists in the interface map, none of
the operations can hit the missing-interface panic. -/
theorem invalid_endpoint_transfer_paths (d : MacOsDevice) (rc : Int)
    (size n addr : Nat) (t : Option Duration)
    (hguard : ∀ p ∈ d.endpoint_metadata, lookup (α := OsInterface) p.2.interface_number d.interfaces ≠ none) :
    (lookup (address_for_in_endpoint n) d.endpoint_metadata = none →
      MacOsBackend.read d rc size n t = some (.error .InvalidEndpoint) ∧
      MacOsBackend.read_nonblocking d rc n t = some (.error .InvalidEndpoint)) ∧
    (lookup (address_for_out_endpoint n) d.endpoint_metadata = none →
      MacOsBackend.write d rc n t = some (.error .InvalidEndpoint) ∧
      MacOsBackend.write_nonblocking d rc n t = some (.error .InvalidEndpoint)) ∧
    (lookup addr d.endpoint_metadata = none →
      MacOsBackend.clear_stall d rc addr = some (.error .InvalidEndpoint)) ∧
    MacOsBackend.read d rc size n t ≠ none ∧
    MacOsBackend.write d rc n t ≠ none ∧
    MacOsBackend.read_nonblocking d rc n t ≠ none ∧
    MacOsBackend.write_nonblocking d rc n t ≠ none ∧
    MacOsBackend.clear_stall d rc addr ≠ none := by
  have hmiss : ∀ a, lookup a d.endpoint_metadata = none →
      MacOsBackend.resources_for_endpoint d a = some (.error .InvalidEndpoint) := by
    intro a ha
    unfold MacOsBackend.resources_for_endpoint
    rw [ha]
  have hnp := resources_for_endpoint_no_panic d hguard
  refine ⟨?_, ?_, ?_, ?_, ?_, ?_, ?_, ?_⟩
  · intro h
    refine ⟨?_, ?_⟩
    · unfold MacOsBackend.read MacOsBackend.resources_for_in_endpoint
      rw [hmiss _ h]
    · unfold MacOsBackend.read_nonblocking MacOsBackend.resources_for_in_endpoint
      rw [hmiss _ h]
  · intro h
    refine ⟨?_, ?_⟩
    · unfold MacOsBackend.write MacOsBackend.resources_for_out_endpoint
      rw [hmiss _ h]
    · unfold MacOsBackend.write_nonblocking MacOsBackend.resources_for_out_endpoint
      rw [hmiss _ h]
  · intro h
    unfold MacOsBackend.clear_stall
    rw [hmiss _ h]
  · unfold MacOsBackend.read MacOsBackend.resources_for_in_endpoint
    cases hres : MacOsBackend.resources_for_endpoint d (address_for_in_endpoint n) with
    | none => exact absurd hres (hnp _)
    | some r => rcases r with e | ⟨pr, intf⟩ <;> cases t <;> simp
  · unfold MacOsBackend.write MacOsBackend.resources_for_out_endpoint
    cases hres : MacOsBackend.resources_for_endpoint d (address_for_out_endpoint n) with
    | none => exact absurd hres (hnp _)
    | some r => rcases r with e | ⟨pr, intf⟩ <;> cases t <;> simp
  · unfold MacOsBackend.read_nonblocking MacOsBackend.resources_for_in_endpoint
    cases hres : MacOsBackend.resources_for_endpoint d (address_for_in_endpoint n) with
    | none => exact absurd hres (hnp _)
    | some r => rcases r with e | ⟨pr, intf⟩ <;> cases t <;> simp
  · unfold MacOsBackend.write_nonblocking MacOsBackend.resources_for_out_endpoint
    cases hres : MacOsBackend.resources_for_endpoint d (address_for_out_endpoint n) with
    | none => exact absurd hres (hnp _)
    | some r => rcases r with e | ⟨pr, intf⟩ <;> cases t <;> simp
  · unfold MacOsBackend.clear_stall
    cases hres : MacOsBackend.resources_for_endpoint d addr with
    | none => exact absurd hres (hnp _)
    | some r => rcases r with e | ⟨pr, intf⟩ <;> simp

/-- Witness for C6: a device with one interface and no endpoint metadata. -/
theorem invalid_endpoint_transfer_paths_witness :
    MacOsBackend.read (MacOsDevice.mk [(0, OsInterface.new 0)] []) 0 0 1 none
      = some (.error .InvalidEndpoint) ∧
    MacOsBackend.write (MacOsDevice.mk [(0, OsInterface.new 0)] []) 0 1 none
      = some (.error .InvalidEndpoint) ∧
    MacOsBackend.clear_stall (MacOsDevice.mk [(0, OsInterface.new 0)] []) 0 129
      = some (.error .InvalidEndpoint) := by
  have h := invalid_endpoint_transfer_paths (MacOsDevice.mk [(0, OsInterface.new 0)] [])
    0 0 1 129 none (by intro p hp; cases hp)
  exact ⟨(h.1 rfl).1, (h.2.1 rfl).1, h.2.2.1 rfl⟩

/-! ## The device-open retry loop (claim C5) -/

/-- The OS oracle for `open_usb_device_from_io_device`: per attempt, the
return code of `IOCreatePlugInInterfaceForService` and whether the returned
plugin pointer was null despite success; `rest` abstracts the outcome of
the remainder of the successful open path (query_interface, device open,
interface population). -/
structure OpenOracle where
  rc : Nat → Int
  pluginNull : Nat → Bool
  rest : UsbResult Unit

/-- The OS calls issued by `j` failed no-resources attempts: each attempt's
plugin-interface creation followed by the 1 ms sleep before the next retry. -/
def attemptCalls : Nat → List OsCall
  | 0 => []
  | j + 1 => .CreatePlugInInterfaceForService :: .SleepMs 1 :: attemptCalls j

/-- The `for _ in 0..5` loop body of `open_usb_device_from_io_device`
(`src/backend/macos/device.rs`), with explicit remaining fuel and attempt
index: a `kIOReturnNoResources` result sleeps 1 ms and retries; any other
non-success code returns `Error::OsError(rc)` immediately; a null plugin on
success returns `UnspecifiedOsError`; exhausting the fuel falls through to
`Err(Error::DeviceNotFound)`. -/
def open_usb_device_loop (o : OpenOracle) : Nat → Nat → UsbResult Unit × List OsCall
  | 0, _ => (.error .DeviceNotFound, [])
  | fuel + 1, attempt =>
    let rc := o.rc attempt
    if rc = kIOReturnNoResources then
      let (r, calls) := open_usb_device_loop o fuel (attempt + 1)
      (r, .CreatePlugInInterfaceForService :: .SleepMs 1 :: calls)
    else if rc ≠ kIOReturnSuccess then
      (.error (.OsError rc), [.CreatePlugInInterfaceForService])
    else if o.pluginNull attempt then
      (.error .UnspecifiedOsError, [.CreatePlugInInterfaceForService])
    else (o.rest, [.CreatePlugInInterfaceForService])

/-- `open_usb_device_from_io_device`: five attempts. -/
def open_usb_device_from_io_device (o : OpenOracle) : UsbResult Unit × List OsCall :=
  open_usb_device_loop o 5 0

/-- If every attempt within the fuel reports no-resources, the loop exhausts
its fuel and gives up with `DeviceNotFound`. -/
theorem open_loop_all_no_resources (o : OpenOracle) :
    ∀ fuel attempt, (∀ k, k < fuel → o.rc (attempt + k) = kIOReturnNoResources) →
      open_usb_device_loop o fuel attempt = (.error .DeviceNotFound, attemptCalls fuel) := by
  intro fuel
  induction fuel with
  | zero => intro attempt _; rfl
  | succ f ih =>
    intro attempt h
    have h0 : o.rc attempt = kIOReturnNoResources := by
      have := h 0 (Nat.succ_pos f)
      simpa using this
    have hrec := ih (attempt + 1) (by
      intro k hk
      have := h (k + 1) (Nat.succ_lt_succ hk)
      rwa [show attempt + (k + 1) = attempt + 1 + k by omega] at this)
    unfold open_usb_device_loop
    rw [h0]
    simp [hrec, attemptCalls]

/-- If the first `j` attempts report no-resources and attempt `j` reports a
failure that is neither no-resources nor success, the loop stops right there
with `Error::OsError` of that code. -/
theorem open_loop_other_failure (o : OpenOracle) :
    ∀ j fuel attempt, j < fuel →
      (∀ k, k < j → o.rc (attempt + k) = kIOReturnNoResources) →
      o.rc (attempt + j) ≠ kIOReturnNoResources →
      o.rc (attempt + j) ≠ kIOReturnSuccess →
      open_usb_device_loop o fuel attempt
        = (.error (.OsError (o.rc (attempt + j))),
           attemptCalls j ++ [.CreatePlugInInterfaceForService]) := by
  intro j
  induction j with
  | zero =>
    intro fuel attempt hlt _ hne hns
    obtain ⟨f, rfl⟩ : ∃ f, fuel = f + 1 :=
      ⟨fuel - 1, (Nat.succ_pred_eq_of_pos hlt).symm⟩
    rw [Nat.add_zero] at hne hns
    unfold open_usb_device_loop
    rw [if_neg hne, if_pos hns]
    simp [attemptCalls]
  | succ i ih =>
    intro fuel attempt hlt hpre hne hns
    obtain ⟨f, rfl⟩ : ∃ f, fuel = f + 1 :=
      ⟨fuel - 1, (Nat.succ_pred_eq_of_pos (Nat.lt_of_le_of_lt (Nat.zero_le _) hlt)).symm⟩
    have h0 : o.rc attempt = kIOReturnNoResources := by
      have := hpre 0 (Nat.succ_pos i)
      simpa using this
    have hshift : attempt + (i + 1) = (attempt + 1) + i := by omega
    have hrec := ih f (attempt + 1) (Nat.lt_of_succ_lt_succ hlt)
      (by
        intro k hk
        have := hpre (k + 1) (Nat.succ_lt_succ hk)
        rwa [show attempt + (k + 1) = (attempt + 1) + k by omega] at this)
      (by rwa [hshift] at hne)
      (by rwa [hshift] at hns)
    unfold open_usb_device_loop
    rw [h0]
    simp only [if_pos rfl, hrec, attemptCalls, hshift]
    simp

/-- C5: if the OS reports the transient no-resources condition on all five
attempts, the open path performs exactly five plugin-creation attempts, each
followed by the 1 ms sleep, and then gives up with `DeviceNotFound`; while a
failure code other than no-resources (and other than success) on an attempt
is returned immediately as `Error::OsError(code)` with no further attempt. -/
theorem open_retry_bounded (o : OpenOracle) (j : Nat) :
    ((∀ k, k < 5 → o.rc k = kIOReturnNoResources) →
      open_usb_device_from_io_device o = (.error .DeviceNotFound, attemptCalls 5)) ∧
    (j < 5 → (∀ k, k < j → o.rc k = kIOReturnNoResources) →
      o.rc j ≠ kIOReturnNoResources → o.rc j ≠ kIOReturnSuccess →
      open_usb_device_from_io_device o
        = (.error (.OsError (o.rc j)),
           attemptCalls j ++ [.CreatePlugInInterfaceForService])) := by
  constructor
  · intro h
    unfold open_usb_device_from_io_device
    exact open_loop_all_no_resources o 5 0 (by intro k hk; simpa using h k hk)
  · intro hlt hpre hne hns
    unfold open_usb_device_from_io_device
    have := open_loop_other_failure o j 5 0 hlt
      (by intro k hk; simpa using hpre k hk)
      (by simpa using hne) (by simpa using hns)
    simpa using this

/-- Witness for C5: an oracle that always reports no-resources, and an
oracle whose first attempt reports `kIOReturnExclusiveAccess`. -/
theorem open_retry_bounded_witness :
    open_usb_device_from_io_device
        (OpenOracle.mk (fun _ => kIOReturnNoResources) (fun _ => false) (.ok ()))
      = (.error .DeviceNotFound, attemptCalls 5) ∧
    open_usb_device_from_io_device
        (OpenOracle.mk (fun _ => kIOReturnExclusiveAccess) (fun _ => false) (.ok ()))
      = (.error (.OsError kIOReturnExclusiveAccess), [.CreatePlugInInterfaceForService]) := by
  constructor
  · exact (open_retry_bounded
      (OpenOracle.mk (fun _ => kIOReturnNoResources) (fun _ => false) (.ok ())) 0).1
      (fun k _ => rfl)
  · have := (open_retry_bounded
      (OpenOracle.mk (fun _ => kIOReturnExclusiveAccess) (fun _ => false) (.ok ())) 0).2
      (by decide) (fun k hk => absurd hk (Nat.not_lt_zero k))
      (by decide) (by decide)
    simpa [attemptCalls] using this

/-! ## The future adapter (claim C3) -/

/-- `UsbFutureState` from `src/futures.rs`; the waker is modelled as an
opaque identifier. -/
structure UsbFutureState where
  pending : Bool
  result : Option (UsbResult Nat)
  waker : Option Nat
deriving Repr

/-- `UsbFutureState::new`. -/
def UsbFutureState.new : UsbFutureState :=
  { pending := true, result := none, waker := none }

/-- `UsbFutureState::complete` from `src/futures.rs`: store the result,
clear `pending`, then take and wake the registered waker if present.
Returns the new state and the list of wakers woken. -/
def UsbFutureState.complete (s : UsbFutureState) (result : UsbResult Nat) :
    UsbFutureState × List Nat :=
  let s1 := { s with result := some result, pending := false }
  match s1.waker with
  | some waker => ({ s1 with waker := none }, [waker])
  | none => (s1, [])

/-- `Poll` as used by `UsbFuture::poll`. -/
inductive Poll where
  | Pending
  | Ready (r : UsbResult Nat)
deriving Repr

/-- `UsbFuture::poll` from `src/futures.rs`: while pending, store the
caller's waker and report `Pending`; once complete, `take` the stored result
and return it `Ready`; `none` models the
`expect("future was complete without result")` panic on a later poll. -/
def UsbFuture.poll (s : UsbFutureState) (waker : Nat) : Option (Poll × UsbFutureState) :=
  if s.pending then some (.Pending, { s with waker := some waker })
  else
    match s.result with
    | some r => some (.Ready r, { s with result := none })
    | none => none

/-- C3: completing stores the result, clears the pending flag and wakes the
registered waker if present; polling while pending stores the caller's waker
and returns `Pending`; the first poll after completion returns exactly the
stored result and never `Pending`; and any further poll after that panics. -/
theorem usb_future_single_completion (s : UsbFutureState) (r : UsbResult Nat)
    (w w2 : Nat) :
    ((s.complete r).1 = { pending := false, result := some r, waker := none } ∧
     (s.complete r).2 = s.waker.toList) ∧
    (s.pending = true →
      UsbFuture.poll s w = some (.Pending, { s with waker := some w })) ∧
    UsbFuture.poll (s.complete r).1 w
      = some (.Ready r, { pending := false, result := none, waker := none }) ∧
    UsbFuture.poll { pending := false, result := none, waker := none } w2 = none := by
  have hcomplete : (s.complete r).1
      = { pending := false, result := some r, waker := none } ∧
      (s.complete r).2 = s.waker.toList := by
    unfold UsbFutureState.complete
    cases s.waker <;> simp
  refine ⟨hcomplete, ?_, ?_, ?_⟩
  · intro hp
    unfold UsbFuture.poll
    rw [hp]
    simp
  · rw [hcomplete.1]
    unfold UsbFuture.poll
    simp
  · unfold UsbFuture.poll
    simp

/-- Witness for C3: a fresh pending state completed with `Ok(3)`. -/
theorem usb_future_single_completion_witness :
    (UsbFutureState.new.complete (.ok 3)).1
      = { pending := false, result := some (.ok 3), waker := none } ∧
    UsbFuture.poll UsbFutureState.new 0
      = some (.Pending, { UsbFutureState.new with waker := some 0 }) ∧
    UsbFuture.poll (UsbFutureState.new.complete (.ok 3)).1 0
      = some (.Ready (.ok 3), { pending := false, result := none, waker := none }) ∧
    UsbFuture.poll { pending := false, result := none, waker := none } 1 = none := by
  have h := usb_future_single_completion UsbFutureState.new (.ok 3) 0 1
  exact ⟨h.1.1, h.2.1 rfl, h.2.2.1, h.2.2.2⟩
